import Mathlib

/-!
Shallow embedding of the per-guild music queue coordinator of
`src/groups/music/mod.rs` and `src/groups/music/list.rs` (the current
revision of the module; `src/groups/music.rs` is the superseded earlier
revision), together with proofs about its operations.

Modelling conventions:
* `Uuid`, `ChannelId`, `UserId`, `GuildId` and the opaque songbird
  handles (`Track`, `TrackHandle`, call locks) are represented by `Nat`.
* The async work spawned by `tokio::spawn` is made explicit: the guild
  state is paired with lists of pending play/preload tasks, and a task's
  completion (with its externally determined outcome) is a separate step.
* `TrackHandle::stop()` is an external effect; each operation reports the
  handles it requested a stop on, and a `Bool` parameter supplies the
  success/failure of that external call where the code inspects it.
-/

/-- Embedding of `MusicRequest` (src/groups/music/mod.rs lines 49-57);
the `_title`, `_author`, `_duration` metadata fields are always `None`
at the only construction site and are omitted. -/
structure MusicRequest where
  uuid : Nat
  search_or_url : String
  channel_id : Nat
  requested_by : Nat
deriving DecidableEq, Repr

/-- Embedding of the `TrackPair = (Track, TrackHandle)` alias: an opaque
playable track plus the handle used to stop it. -/
structure TrackPair where
  track : Nat
  handle : Nat
deriving DecidableEq, Repr

/-- Embedding of `LoadedMusic` (mod.rs lines 60-63): the preload slot,
tagged with the uuid it was claimed for; `track_pair` is `none` while the
resolution is still in flight. -/
structure LoadedMusic where
  uuid : Nat
  track_pair : Option TrackPair
deriving DecidableEq, Repr

/-- Embedding of `NowPlaying` (mod.rs lines 66-69). -/
structure NowPlaying where
  uuid : Nat
  track_handle : Nat
deriving DecidableEq, Repr

/-- Embedding of `GuildMusicData` (mod.rs lines 72-78). `call_pair`
stores the channel a held voice call is bound to and the opaque call
handle. -/
structure GuildMusicData where
  guild_id : Nat
  queue : List MusicRequest
  preloaded : Option LoadedMusic
  now_playing : Option NowPlaying
  call_pair : Option (Nat × Nat)
deriving DecidableEq, Repr

/-- Embedding of `GuildMusicData::new` (mod.rs lines 305-313). -/
def GuildMusicData.new (guild_id : Nat) : GuildMusicData :=
  { guild_id := guild_id
    queue := []
    preloaded := none
    now_playing := none
    call_pair := none }

/-- Embedding of `ErrorSeverity` (src/groups/mod.rs). -/
inductive ErrorSeverity where
  | Internal
  | UserInput
deriving DecidableEq, Repr

/-- Embedding of `ErrorKind` (src/groups/mod.rs), extended with the
`QueueIsEmpty` and `MustProvideSomeArguments` variants referenced by
src/groups/music/mod.rs. -/
inductive ErrorKind where
  | NotInVoiceChannel
  | InternalError
  | VoiceNotEnabled
  | MustProvideURL
  | MusicDataNotInitialized
  | MessageNotInGuildChannel
  | NoSongCurrentlyPlaying
  | QueueIsEmpty
  | MustProvideSomeArguments (n : Nat)
deriving DecidableEq, Repr

/-- Embedding of `DiscordCommandError` (src/groups/mod.rs); the boxed
`source` error object is dropped (it is opaque diagnostic data). -/
structure DiscordCommandError where
  kind : ErrorKind
  severity : ErrorSeverity
deriving DecidableEq, Repr

/-- Embedding of `GuildMusicResult<T>`. -/
abbrev GuildMusicResult (α : Type) := Except DiscordCommandError α

/-! ## The shuffle of `src/groups/music/list.rs`

`VecDeque::swap(i, j)` panics when an index is out of bounds; at the one
call site both indices are always in bounds (`i` ranges over
`0..self.len()` and `j` is sampled from `Uniform::new(0, self.len())`),
so the out-of-bounds case below (modelled as a no-op) is never reached
from `shuffleWith` on the sample space. -/

/-- Embedding of `VecDeque::swap` restricted to its defined (non-panic)
domain: exchange the elements at positions `i` and `j`. -/
def vdSwap (l : List α) (i j : Nat) : List α :=
  if h : i < l.length ∧ j < l.length then
    (l.set i (l.get ⟨j, h.2⟩)).set j (l.get ⟨i, h.1⟩)
  else
    l

/-- Loop body of `Shuffleable::shuffle for VecDeque<T>` (list.rs lines
13-15): `for i in 0..self.len() { self.swap(i, rng.sample(uniform)) }`,
with the successive samples drawn from the rng supplied as `choices`. -/
def shuffleLoop (l : List α) (i : Nat) (choices : List Nat) : List α :=
  match choices with
  | [] => l
  | c :: rest => shuffleLoop (vdSwap l i c) (i + 1) rest

/-- Embedding of `Shuffleable::shuffle` (list.rs lines 10-17): one swap
per index `0..len`, each with a partner sampled uniformly from
`[0, len)`; `choices` lists the sampled partners in order. In a real run
`choices.length = l.length` and every element is `< l.length`. -/
def shuffleWith (choices : List Nat) (l : List α) : List α :=
  shuffleLoop l 0 choices

/-! ## Pending asynchronous tasks

`tick_guild_music` spawns up to one playback task (mod.rs lines 147-188)
and up to one preload task (lines 198-209) per invocation. -/

/-- Data captured by the playback task spawned at mod.rs line 147: the
popped entry, the consumed preload result (if valid) and the reusable
call (if bound to the right channel). -/
structure PlayTask where
  guild_id : Nat
  next : MusicRequest
  track_pair_option : Option TrackPair
  current_call_option : Option Nat
deriving DecidableEq, Repr

/-- Data captured by the preload task spawned at mod.rs line 198. -/
structure PreloadTask where
  uuid : Nat
  url : String
deriving DecidableEq, Repr

/-- Guild state together with its pending spawned tasks and the set of
uuids handed out by `Uuid::new_v4()` so far (used to state freshness). -/
structure SysState where
  data : GuildMusicData
  playTasks : List PlayTask
  preloadTasks : List PreloadTask
  used : List Nat
deriving DecidableEq, Repr

/-- Outcome of one public operation: its returned value, the new state,
the track handles it requested `stop()` on, and whether the operation
invoked `tick_guild_music`. -/
structure OpResult (ρ : Type) where
  res : ρ
  state : SysState
  stopped : List Nat
  ticked : Bool

namespace GuildMusic

/-- Decision phase of `GuildMusic::tick_guild_music` (mod.rs lines
116-211), run under the guild lock: if nothing is playing, pop the front
entry, `take()` the preload slot and keep its pair only on a uuid match,
keep the held call only if bound to the same channel, and hand all of it
to a spawned playback task; then unconditionally reclaim the preload
slot for the new front (if any) and spawn a preload task for it.
Returns the new guild data and the spawned tasks. -/
def tick_guild_music (d : GuildMusicData) :
    GuildMusicData × Option PlayTask × Option PreloadTask :=
  let step1 : GuildMusicData × Option PlayTask :=
    match d.now_playing with
    | some _ => (d, none)
    | none =>
      match d.queue with
      | [] => (d, none)
      | next :: rest =>
        let taken := d.preloaded
        let track_pair := taken.bind fun preloaded =>
          preloaded.track_pair.bind fun track_pair =>
            if preloaded.uuid = next.uuid then some track_pair else none
        let current_call := d.call_pair.bind fun pr =>
          if pr.1 = next.channel_id then some pr.2 else none
        ({ d with queue := rest, preloaded := none },
         some { guild_id := d.guild_id
                next := next
                track_pair_option := track_pair
                current_call_option := current_call })
  let d1 := step1.1
  match d1.queue with
  | front :: _ =>
    ({ d1 with preloaded := some { uuid := front.uuid, track_pair := none } },
     step1.2,
     some { uuid := front.uuid, url := front.search_or_url })
  | [] => (d1, step1.2, none)

/-- Lift of `tick_guild_music` to the task-carrying state: the spawned
tasks join the pending ones. -/
def tickSys (s : SysState) : SysState :=
  let t := tick_guild_music s.data
  { s with
    data := t.1
    playTasks := s.playTasks ++ t.2.1.toList
    preloadTasks := s.preloadTasks ++ t.2.2.toList }

/-- Embedding of `GuildMusic::insert_music` (mod.rs lines 213-228):
push a fresh request to the back of the queue, then tick. The uuid `u`
stands for the `Uuid::new_v4()` call; the step relation requires it
fresh. -/
def insert_music (s : SysState) (search_or_url : String)
    (channel_id requested_by u : Nat) : OpResult Unit :=
  let s1 : SysState :=
    { s with
      data := { s.data with
                queue := s.data.queue ++
                  [{ uuid := u
                     search_or_url := search_or_url
                     channel_id := channel_id
                     requested_by := requested_by }] }
      used := s.used ++ [u] }
  { res := (), state := tickSys s1, stopped := [], ticked := true }

/-- Embedding of `GuildMusic::handle_track_event` (mod.rs lines
230-241): if a track is playing and its uuid matches the event's, stop
its handle (result ignored) and clear `now_playing`; in every case,
tick afterwards. -/
def handle_track_event (s : SysState) (music_uuid : Nat) : OpResult Unit :=
  let cleared : GuildMusicData × List Nat :=
    match s.data.now_playing with
    | some now_playing =>
      if now_playing.uuid = music_uuid then
        ({ s.data with now_playing := none }, [now_playing.track_handle])
      else
        (s.data, [])
    | none => (s.data, [])
  { res := ()
    state := tickSys { s with data := cleared.1 }
    stopped := cleared.2
    ticked := true }

/-- Embedding of `GuildMusic::stop` (mod.rs lines 243-254): `take()` the
now-playing slot; if it was set, replace the queue by a fresh empty one
and request a stop on the handle (`stop_ok` is that external call's
success), otherwise fail with `NoSongCurrentlyPlaying`. No tick. -/
def stop (s : SysState) (stop_ok : Bool) : OpResult (GuildMusicResult Unit) :=
  match s.data.now_playing with
  | some now_playing =>
    let s1 : SysState :=
      { s with data := { s.data with now_playing := none, queue := [] } }
    if stop_ok then
      { res := .ok (), state := s1, stopped := [now_playing.track_handle],
        ticked := false }
    else
      { res := .error { kind := .InternalError, severity := .Internal },
        state := s1, stopped := [now_playing.track_handle], ticked := false }
  | none =>
    { res := .error { kind := .NoSongCurrentlyPlaying,
                      severity := .UserInput },
      state := s, stopped := [], ticked := false }

/-- Number of queue entries `GuildMusic::skip` removes (mod.rs lines
260-273): `min (quantity - 1) queue_len` when `quantity > 1` and the
queue is non-empty, else `0`. -/
def skipRemoved (quantity queue_len : Nat) : Nat :=
  if quantity > 1 ∧ queue_len > 0 then
    if quantity - 1 > queue_len then queue_len else quantity - 1
  else 0

/-- Embedding of `GuildMusic::skip` (mod.rs lines 257-291): truncate
`skipRemoved` entries off the front of the queue (`split_off`), then —
only afterwards — check `now_playing`: if set, request a stop on its
handle (success given by `stop_ok`) and report `removed + 1` on success,
otherwise fail with `NoSongCurrentlyPlaying`. The truncation is kept
even on failure. No tick. -/
def skip (s : SysState) (quantity : Nat) (stop_ok : Bool) :
    OpResult (GuildMusicResult Nat) :=
  let removed := skipRemoved quantity s.data.queue.length
  let s1 : SysState :=
    { s with data := { s.data with queue := s.data.queue.drop removed } }
  match s1.data.now_playing with
  | some now_playing =>
    if stop_ok then
      { res := .ok (removed + 1), state := s1,
        stopped := [now_playing.track_handle], ticked := false }
    else
      { res := .error { kind := .InternalError, severity := .Internal },
        state := s1, stopped := [now_playing.track_handle], ticked := false }
  | none =>
    { res := .error { kind := .NoSongCurrentlyPlaying,
                      severity := .UserInput },
      state := s1, stopped := [], ticked := false }

/-- Embedding of `GuildMusic::shuffle` (mod.rs lines 293-301): fail with
`QueueIsEmpty` on an empty queue, else shuffle the queue in place with
`Shuffleable::shuffle` (rng samples supplied as `choices`). No tick. -/
def shuffle (s : SysState) (choices : List Nat) :
    OpResult (GuildMusicResult Unit) :=
  if s.data.queue.isEmpty then
    { res := .error { kind := .QueueIsEmpty, severity := .UserInput },
      state := s, stopped := [], ticked := false }
  else
    { res := .ok ()
      state := { s with
                 data := { s.data with
                           queue := shuffleWith choices s.data.queue } }
      stopped := [], ticked := false }

/-- Completion of the preload task at index `i` (the async block at
mod.rs lines 198-209): `outcome` is the result of `get_ytdl_track`; on
success the pair is written into the preload slot only if the slot still
carries the task's uuid. -/
def resolvePreloadAt (s : SysState) (i : Nat) (outcome : Option TrackPair) :
    SysState :=
  match s.preloadTasks.get? i with
  | none => s
  | some t =>
    let s1 := { s with preloadTasks := s.preloadTasks.eraseIdx i }
    match outcome with
    | none => s1
    | some track_pair =>
      match s1.data.preloaded with
      | some preloaded =>
        if preloaded.uuid = t.uuid then
          { s1 with
            data := { s1.data with
                      preloaded := some { preloaded with
                                          track_pair := some track_pair } } }
        else s1
      | none => s1

/-- Completion of the playback task at index `i` (the async block at
mod.rs lines 147-188): use the task's pre-resolved pair, else the fresh
resolution outcome `res_out`; use the task's reusable call, else the
fresh join outcome `call_out`; if both are available, set `now_playing`
to the popped entry's uuid and the pair's handle (the subsequent
`call.play` and event registration are external effects). Note the
acquired call is not written back into `call_pair`. -/
def resolvePlayAt (s : SysState) (i : Nat) (res_out : Option TrackPair)
    (call_out : Option Nat) : SysState :=
  match s.playTasks.get? i with
  | none => s
  | some t =>
    let s1 := { s with playTasks := s.playTasks.eraseIdx i }
    match (if t.track_pair_option.isSome then t.track_pair_option
           else res_out) with
    | none => s1
    | some track_pair =>
      match (if t.current_call_option.isSome then t.current_call_option
             else call_out) with
      | none => s1
      | some _call =>
        { s1 with
          data := { s1.data with
                    now_playing := some { uuid := t.next.uuid
                                          track_handle := track_pair.handle } } }

/-- One atomic transition of the guild system: a public command, an
external track-end event, or the completion of a pending spawned task.
`insert` requires the generated uuid to be fresh (`Uuid::new_v4`
collisions are assumed away). -/
inductive Step : SysState → SysState → Prop where
  | insert (s : SysState) (q : String) (ch rb u : Nat) (hu : u ∉ s.used) :
      Step s (insert_music s q ch rb u).state
  | trackEvent (s : SysState) (u : Nat) :
      Step s (handle_track_event s u).state
  | stopCmd (s : SysState) (ok : Bool) :
      Step s (stop s ok).state
  | skipCmd (s : SysState) (n : Nat) (ok : Bool) :
      Step s (skip s n ok).state
  | shuffleCmd (s : SysState) (choices : List Nat) :
      Step s (shuffle s choices).state
  | preloadDone (s : SysState) (i : Nat) (outcome : Option TrackPair) :
      Step s (resolvePreloadAt s i outcome)
  | playDone (s : SysState) (i : Nat) (res_out : Option TrackPair)
      (call_out : Option Nat) :
      Step s (resolvePlayAt s i res_out call_out)

/-- Zero or more transitions. -/
abbrev Reaches : SysState → SysState → Prop :=
  Relation.ReflTransGen Step

end GuildMusic

/-- Uuids currently in the queue, front first. -/
def queueUuids (d : GuildMusicData) : List Nat :=
  d.queue.map (fun r => r.uuid)

/-- All sequences of `k` rng samples, each drawn from `[0, n)` — the
sample space of `k` consecutive draws from `Uniform::new(0, n)`, every
sequence equally likely. -/
def choiceVectors : Nat → Nat → List (List Nat)
  | _, 0 => [[]]
  | n, k + 1 => (List.range n).flatMap fun c =>
      (choiceVectors n k).map fun cs => c :: cs

/-- Number of equally likely rng sample sequences under which
`Shuffleable::shuffle` sends the queue `0, 1, …, n-1` to `target`;
the shuffle's distribution is uniform iff this count is the same for
every permutation `target`. -/
def shuffleCount (n : Nat) (target : List Nat) : Nat :=
  ((choiceVectors n n).filter
    (fun cs => shuffleWith cs (List.range n) = target)).length

/-- Predicate: the uuid `A` has been handed out in the past but no
longer occurs in the queue, in any pending playback task, or as the
currently playing uuid. This is the situation after `skip` (or any
other removal) has dropped `A`'s entry from the queue. -/
abbrev UuidRetired (A : Nat) (s : SysState) : Prop :=
  A ∈ s.used ∧
  A ∉ queueUuids s.data ∧
  (∀ pt ∈ s.playTasks, pt.next.uuid ≠ A) ∧
  s.data.now_playing.map NowPlaying.uuid ≠ some A

/-! ## Concrete fixture states used by witnesses and counterexamples -/

/-- Fixture for C1: entry `5` is at the front of the queue, claimed by
the preload slot, with its preload resolution still in flight; an
unrelated track `9` is playing. -/
def fixtureC1 : SysState :=
  { data := { guild_id := 1
              queue := [⟨5, "q", 7, 3⟩]
              preloaded := some ⟨5, none⟩
              now_playing := some ⟨9, 100⟩
              call_pair := none }
    playTasks := []
    preloadTasks := [⟨5, "q"⟩]
    used := [5, 9] }

/-- Fixture for C1's witness: a fresh guild in which uuid `5` has been
handed out and retired. -/
def fixtureC1w : SysState :=
  { data := GuildMusicData.new 1, playTasks := [], preloadTasks := [], used := [5] }

/-- Fixture for C2: track `9` playing, entry `6` queued and claimed by
an in-flight preload. -/
def fixtureC2 : SysState :=
  { data := { guild_id := 1
              queue := [⟨6, "b", 7, 3⟩]
              preloaded := some ⟨6, none⟩
              now_playing := some ⟨9, 100⟩
              call_pair := none }
    playTasks := []
    preloadTasks := [⟨6, "b"⟩]
    used := [6, 9] }

/-- Fixture for C3: track `9` playing, entry `6` queued with an already
resolved preload slot. -/
def fixtureC3 : SysState :=
  { data := { guild_id := 1
              queue := [⟨6, "b", 7, 3⟩]
              preloaded := some ⟨6, some ⟨8, 9⟩⟩
              now_playing := some ⟨9, 100⟩
              call_pair := none }
    playTasks := []
    preloadTasks := []
    used := [6, 9] }

/-- Fixture for C4: three queued entries and a playing track. -/
def fixtureC4 : SysState :=
  { data := { guild_id := 1
              queue := [⟨10, "a", 7, 3⟩, ⟨11, "b", 7, 3⟩, ⟨12, "c", 7, 3⟩]
              preloaded := none
              now_playing := some ⟨9, 100⟩
              call_pair := none }
    playTasks := []
    preloadTasks := []
    used := [9, 10, 11, 12] }

/-- Fixture for C5: two queued entries and nothing playing. -/
def fixtureC5 : SysState :=
  { data := { guild_id := 1
              queue := [⟨10, "a", 7, 3⟩, ⟨11, "b", 7, 3⟩]
              preloaded := none
              now_playing := none
              call_pair := none }
    playTasks := []
    preloadTasks := []
    used := [10, 11] }

/-- Fixture for C6: a fully idle guild (no queue, nothing playing). -/
def fixtureC6 : SysState :=
  { data := GuildMusicData.new 1, playTasks := [], preloadTasks := [], used := [] }

/-- Fixture for C7: the front entry `5` already has a fully resolved
preload slot, and an unrelated track `9` is playing. -/
def fixtureC7 : GuildMusicData :=
  { guild_id := 1
    queue := [⟨5, "q", 7, 3⟩]
    preloaded := some ⟨5, some ⟨8, 9⟩⟩
    now_playing := some ⟨9, 100⟩
    call_pair := none }

/-- Fixture for C8: a pending playback task that will have to resolve
its track and acquire its call from scratch. -/
def fixtureC8 : SysState :=
  { data := { guild_id := 1
              queue := []
              preloaded := none
              now_playing := none
              call_pair := none }
    playTasks := [⟨1, ⟨5, "q", 7, 3⟩, none, none⟩]
    preloadTasks := []
    used := [5] }

/-- Fixture for C8's witness: a held call bound to channel `7` and a
front entry targeting that same channel. -/
def fixtureC8w : GuildMusicData :=
  { guild_id := 1
    queue := [⟨5, "q", 7, 3⟩]
    preloaded := none
    now_playing := none
    call_pair := some (7, 42) }

/-- Fixture for C9: two queued entries, nothing playing. -/
def fixtureC9 : SysState :=
  { data := { guild_id := 1
              queue := [⟨10, "a", 7, 3⟩, ⟨11, "b", 7, 3⟩]
              preloaded := some ⟨10, none⟩
              now_playing := some ⟨9, 100⟩
              call_pair := none }
    playTasks := []
    preloadTasks := []
    used := [9, 10, 11] }

/-! ## Helper lemmas -/

theorem perm_get_cons_set (t : List α) (m : Nat) (h : m < t.length) (a : α) :
    List.Perm (t.get ⟨m, h⟩ :: t.set m a) (a :: t) := by
  induction t generalizing m with
  | nil => simp at h
  | cons x r ih =>
    cases m with
    | zero => simpa using List.Perm.swap a x r
    | succ k =>
      have hk : k < r.length := by simpa using h
      have h1 : List.Perm (r.get ⟨k, hk⟩ :: x :: r.set k a)
          (x :: r.get ⟨k, hk⟩ :: r.set k a) := List.Perm.swap x _ _
      have h2 : List.Perm (x :: r.get ⟨k, hk⟩ :: r.set k a) (x :: a :: r) :=
        (ih k hk).cons x
      have h3 : List.Perm (x :: a :: r) (a :: x :: r) := List.Perm.swap a x r
      simpa using (h1.trans h2).trans h3

theorem perm_set_set_swap (l : List α) (i j : Nat) (hi : i < l.length)
    (hj : j < l.length) :
    List.Perm ((l.set i (l.get ⟨j, hj⟩)).set j (l.get ⟨i, hi⟩)) l := by
  induction l generalizing i j with
  | nil => simp at hi
  | cons x r ih =>
    cases i with
    | zero =>
      cases j with
      | zero => simp
      | succ m =>
        have hm : m < r.length := by simpa using hj
        simpa using perm_get_cons_set r m hm x
    | succ k =>
      have hk : k < r.length := by simpa using hi
      cases j with
      | zero => simpa using perm_get_cons_set r k hk x
      | succ m =>
        have hm : m < r.length := by simpa using hj
        simpa using (ih k m hk hm).cons x

theorem vdSwap_perm (l : List α) (i j : Nat) : List.Perm (vdSwap l i j) l := by
  unfold vdSwap
  split
  · next h => exact perm_set_set_swap l i j h.1 h.2
  · exact List.Perm.refl l

theorem shuffleLoop_perm (choices : List Nat) (l : List α) (i : Nat) :
    List.Perm (shuffleLoop l i choices) l := by
  induction choices generalizing l i with
  | nil => exact List.Perm.refl l
  | cons c rest ih =>
    exact (ih (vdSwap l i c) (i + 1)).trans (vdSwap_perm l i c)

theorem shuffleWith_perm (choices : List Nat) (l : List α) :
    List.Perm (shuffleWith choices l) l :=
  shuffleLoop_perm choices l 0

theorem skipRemoved_eq_min (q l : Nat) (h : 1 ≤ q) :
    GuildMusic.skipRemoved q l = min (q - 1) l := by
  unfold GuildMusic.skipRemoved
  split_ifs <;> omega

theorem tickSys_fields (s : SysState) :
    (GuildMusic.tickSys s).data.call_pair = s.data.call_pair ∧
    (GuildMusic.tickSys s).data.now_playing = s.data.now_playing ∧
    (GuildMusic.tickSys s).used = s.used ∧
    (GuildMusic.tickSys s).data.guild_id = s.data.guild_id := by
  obtain ⟨⟨g, q, pl, np, cp⟩, pts, plts, us⟩ := s
  cases np with
  | some np => cases q <;> simp [GuildMusic.tickSys, GuildMusic.tick_guild_music]
  | none =>
    cases q with
    | nil => simp [GuildMusic.tickSys, GuildMusic.tick_guild_music]
    | cons x xs =>
      cases xs <;> simp [GuildMusic.tickSys, GuildMusic.tick_guild_music]

theorem tickSys_queue_mem (s : SysState) (u : Nat)
    (hu : u ∈ queueUuids (GuildMusic.tickSys s).data) :
    u ∈ queueUuids s.data := by
  obtain ⟨⟨g, q, pl, np, cp⟩, pts, plts, us⟩ := s
  cases np with
  | some np =>
    cases q <;>
      simp_all [GuildMusic.tickSys, GuildMusic.tick_guild_music, queueUuids]
  | none =>
    cases q with
    | nil =>
      simp_all [GuildMusic.tickSys, GuildMusic.tick_guild_music, queueUuids]
    | cons x xs =>
      cases xs with
      | nil =>
        simp [GuildMusic.tickSys, GuildMusic.tick_guild_music,
          queueUuids] at hu
      | cons y ys =>
        simp only [GuildMusic.tickSys, GuildMusic.tick_guild_music,
          queueUuids, List.map_cons, List.mem_cons] at hu ⊢
        tauto

theorem tickSys_playTasks_mem (s : SysState) (pt : PlayTask)
    (hpt : pt ∈ (GuildMusic.tickSys s).playTasks) :
    pt ∈ s.playTasks ∨ pt.next.uuid ∈ queueUuids s.data := by
  obtain ⟨⟨g, q, pl, np, cp⟩, pts, plts, us⟩ := s
  cases np with
  | some np =>
    cases q <;>
      first
        | exact Or.inl (by
            simpa [GuildMusic.tickSys, GuildMusic.tick_guild_music] using hpt)
  | none =>
    cases q with
    | nil =>
      exact Or.inl (by
        simpa [GuildMusic.tickSys, GuildMusic.tick_guild_music] using hpt)
    | cons x xs =>
      cases xs with
      | nil =>
        simp only [GuildMusic.tickSys, GuildMusic.tick_guild_music,
          Option.toList, List.mem_append, List.mem_singleton] at hpt
        rcases hpt with h | h
        · exact Or.inl h
        · subst h; simp [queueUuids]
      | cons y ys =>
        simp only [GuildMusic.tickSys, GuildMusic.tick_guild_music,
          Option.toList, List.mem_append, List.mem_singleton] at hpt
        rcases hpt with h | h
        · exact Or.inl h
        · subst h; simp [queueUuids]

/-- C4: for every `count ≥ 1`, `skip(count)` drops exactly
`min (count - 1) (queue length)` entries from the front of the queue,
spawns no resolution work, requests a stop on the playing track's handle
when one exists; `count` above the queue length empties the queue, and
`count = 0` or `count = 1` removes nothing. -/
theorem c4_skip_removal_bounds (s : SysState) (quantity : Nat) (ok : Bool) :
    (1 ≤ quantity →
      (GuildMusic.skip s quantity ok).state.data.queue =
        s.data.queue.drop (min (quantity - 1) s.data.queue.length)) ∧
    (GuildMusic.skip s quantity ok).state.playTasks = s.playTasks ∧
    (GuildMusic.skip s quantity ok).state.preloadTasks = s.preloadTasks ∧
    (∀ np, s.data.now_playing = some np →
      (GuildMusic.skip s quantity ok).stopped = [np.track_handle]) ∧
    (s.data.queue.length < quantity →
      (GuildMusic.skip s quantity ok).state.data.queue = []) ∧
    ((quantity = 0 ∨ quantity = 1) →
      (GuildMusic.skip s quantity ok).state.data.queue = s.data.queue) := by
  have hstate : (GuildMusic.skip s quantity ok).state.data.queue =
      s.data.queue.drop (GuildMusic.skipRemoved quantity s.data.queue.length) ∧
      (GuildMusic.skip s quantity ok).state.playTasks = s.playTasks ∧
      (GuildMusic.skip s quantity ok).state.preloadTasks = s.preloadTasks ∧
      (∀ np, s.data.now_playing = some np →
        (GuildMusic.skip s quantity ok).stopped = [np.track_handle]) := by
    unfold GuildMusic.skip
    cases hnp : s.data.now_playing <;> cases ok <;> simp [hnp]
  refine ⟨?_, hstate.2.1, hstate.2.2.1, hstate.2.2.2, ?_, ?_⟩
  · intro h1
    rw [hstate.1, skipRemoved_eq_min _ _ h1]
  · intro hlt
    rw [hstate.1]
    have : GuildMusic.skipRemoved quantity s.data.queue.length =
        s.data.queue.length := by
      unfold GuildMusic.skipRemoved
      split_ifs <;> omega
    rw [this, List.drop_length]
  · rintro (rfl | rfl) <;>
      · rw [hstate.1]
        simp [GuildMusic.skipRemoved]

/-- Witness for C4: `skip(2)` on a guild with three queued entries and a
playing track drops exactly one entry and requests a stop on the playing
handle. -/
theorem c4_skip_removal_bounds_witness :
    (GuildMusic.skip fixtureC4 2 true).state.data.queue =
      fixtureC4.data.queue.drop (min 1 3) ∧
    (GuildMusic.skip fixtureC4 2 true).stopped = [100] := by
  have h := c4_skip_removal_bounds fixtureC4 2 true
  exact ⟨h.1 (by decide), h.2.2.2.1 ⟨9, 100⟩ rfl⟩

/-- C5: when nothing is playing, `skip` fails with
`NoSongCurrentlyPlaying`, requests no stop, and the queue entries it
already truncated stay removed. -/
theorem c5_skip_failure_nonatomic (s : SysState) (quantity : Nat) (ok : Bool)
    (h : s.data.now_playing = none) :
    (GuildMusic.skip s quantity ok).res =
      .error { kind := .NoSongCurrentlyPlaying, severity := .UserInput } ∧
    (GuildMusic.skip s quantity ok).state.data.queue =
      s.data.queue.drop (GuildMusic.skipRemoved quantity s.data.queue.length) ∧
    (GuildMusic.skip s quantity ok).stopped = [] := by
  unfold GuildMusic.skip
  simp [h]

/-- Witness for C5: `skip(3)` on two queued entries with nothing playing
fails with `NoSongCurrentlyPlaying` yet leaves the queue emptied. -/
theorem c5_skip_failure_nonatomic_witness :
    (GuildMusic.skip fixtureC5 3 true).res =
      .error { kind := .NoSongCurrentlyPlaying, severity := .UserInput } ∧
    (GuildMusic.skip fixtureC5 3 true).state.data.queue = [] ∧
    (GuildMusic.skip fixtureC5 3 true).stopped = [] := by
  have h := c5_skip_failure_nonatomic fixtureC5 3 true rfl
  exact ⟨h.1, h.2.1, h.2.2⟩

/-- C6: with a track playing, `stop()` clears `now_playing`, empties the
queue and requests a stop on the handle (reporting success when the
external stop succeeds); with nothing playing it fails with
`NoSongCurrentlyPlaying` and leaves the state untouched. -/
theorem c6_stop_semantics (s : SysState) (ok : Bool) :
    (∀ np, s.data.now_playing = some np →
      (GuildMusic.stop s ok).state.data.now_playing = none ∧
      (GuildMusic.stop s ok).state.data.queue = [] ∧
      (GuildMusic.stop s ok).stopped = [np.track_handle] ∧
      (ok = true → (GuildMusic.stop s ok).res = .ok ())) ∧
    (s.data.now_playing = none →
      (GuildMusic.stop s ok).res =
        .error { kind := .NoSongCurrentlyPlaying, severity := .UserInput } ∧
      (GuildMusic.stop s ok).state = s ∧
      (GuildMusic.stop s ok).stopped = []) := by
  constructor
  · intro np hnp
    unfold GuildMusic.stop
    cases ok <;> simp [hnp]
  · intro hnp
    unfold GuildMusic.stop
    simp [hnp]

/-- Witness for C6: `stop()` on a fully idle guild fails with
`NoSongCurrentlyPlaying` and the state stays all-empty. -/
theorem c6_stop_semantics_witness :
    (GuildMusic.stop fixtureC6 true).res =
      .error { kind := .NoSongCurrentlyPlaying, severity := .UserInput } ∧
    (GuildMusic.stop fixtureC6 true).state = fixtureC6 ∧
    (GuildMusic.stop fixtureC6 true).stopped = [] :=
  (c6_stop_semantics fixtureC6 true).2 rfl

/-- C10: whatever values the rng produces, `Shuffleable::shuffle`
(modelled by `shuffleWith`) only swaps elements in place, so its output
is a permutation of its input: same length, same multiset, no element
lost or duplicated. -/
theorem c10_shuffle_is_permutation {α : Type} (choices : List Nat)
    (l : List α) :
    List.Perm (shuffleWith choices l) l ∧
    (shuffleWith choices l).length = l.length ∧
    (shuffleWith choices l : Multiset α) = (l : Multiset α) := by
  have h := shuffleWith_perm choices l
  exact ⟨h, h.length_eq, Multiset.coe_eq_coe.mpr h⟩

/-- C9 counterexample: the shuffle of list.rs is not uniform over
permutations. On the 3-element queue `[0, 1, 2]`, the 27 equally likely
rng sample sequences produce the permutation `[1, 0, 2]` strictly more
often (5 times) than the permutation `[0, 1, 2]` (4 times), so the two
permutations do not have equal probability. -/
theorem c9_shuffle_not_uniform_counterexample :
    List.Perm [1, 0, 2] (List.range 3) ∧
    shuffleCount 3 [1, 0, 2] = 5 ∧
    shuffleCount 3 (List.range 3) = 4 ∧
    shuffleCount 3 [1, 0, 2] ≠ shuffleCount 3 (List.range 3) := by
  refine ⟨by decide, by decide, by decide, by decide⟩

/-- C9 (amended): `shuffle()` permutes the queue in place by successive
swaps (the swap-all algorithm, whose distribution is not uniform over
permutations), leaves `now_playing`, the preload slot and all pending
tasks untouched, and on an empty queue fails with `QueueIsEmpty`
leaving the state unchanged. -/
theorem c9_shuffle_contract_amended (s : SysState) (choices : List Nat) :
    (s.data.queue = [] →
      (GuildMusic.shuffle s choices).res =
        .error { kind := .QueueIsEmpty, severity := .UserInput } ∧
      (GuildMusic.shuffle s choices).state = s) ∧
    (s.data.queue ≠ [] →
      (GuildMusic.shuffle s choices).res = .ok () ∧
      List.Perm (GuildMusic.shuffle s choices).state.data.queue
        s.data.queue ∧
      (GuildMusic.shuffle s choices).state.data.now_playing =
        s.data.now_playing ∧
      (GuildMusic.shuffle s choices).state.data.preloaded =
        s.data.preloaded ∧
      (GuildMusic.shuffle s choices).state.playTasks = s.playTasks ∧
      (GuildMusic.shuffle s choices).state.preloadTasks =
        s.preloadTasks) := by
  constructor
  · intro h
    simp [GuildMusic.shuffle, h]
  · intro h
    have hne : s.data.queue.isEmpty = false := by
      simpa [List.isEmpty_iff] using h
    simp [GuildMusic.shuffle, hne, shuffleWith_perm]

/-- Witness for C9: shuffling a two-entry queue succeeds, permutes the
queue, and leaves `now_playing` and the resolved preload slot alone. -/
theorem c9_shuffle_contract_amended_witness :
    (GuildMusic.shuffle fixtureC9 [1, 0]).res = .ok () ∧
    List.Perm (GuildMusic.shuffle fixtureC9 [1, 0]).state.data.queue
      fixtureC9.data.queue ∧
    (GuildMusic.shuffle fixtureC9 [1, 0]).state.data.now_playing =
      fixtureC9.data.now_playing ∧
    (GuildMusic.shuffle fixtureC9 [1, 0]).state.data.preloaded =
      fixtureC9.data.preloaded ∧
    (GuildMusic.shuffle fixtureC9 [1, 0]).state.playTasks =
      fixtureC9.playTasks ∧
    (GuildMusic.shuffle fixtureC9 [1, 0]).state.preloadTasks =
      fixtureC9.preloadTasks :=
  (c9_shuffle_contract_amended fixtureC9 [1, 0]).2 (by decide)

/-- C7 counterexample: the preload phase does not keep an existing slot
whose id equals the front's id. On a state whose front entry `5` has a
fully resolved slot `⟨5, some pair⟩` and whose queue is untouched by the
pop phase (a track is playing), Tick replaces the slot by the empty
`⟨5, none⟩` — discarding the resolved pair — and spawns a fresh
resolution for the same id. -/
theorem c7_preload_slot_overwrite_counterexample :
    (GuildMusic.tick_guild_music fixtureC7).1.queue = fixtureC7.queue ∧
    fixtureC7.preloaded = some ⟨5, some ⟨8, 9⟩⟩ ∧
    (GuildMusic.tick_guild_music fixtureC7).1.preloaded = some ⟨5, none⟩ ∧
    (GuildMusic.tick_guild_music fixtureC7).1.preloaded ≠
      fixtureC7.preloaded ∧
    (GuildMusic.tick_guild_music fixtureC7).2.2 = some ⟨5, "q"⟩ := by
  refine ⟨rfl, rfl, rfl, by decide, rfl⟩

/-- C7 (amended): on every Tick, whenever the (post-pop) queue has a
front entry `f`, the preload phase unconditionally installs a fresh
empty slot tagged `f.uuid` and spawns a resolution task for `f` — even
when the current slot already carries the same id (a resolved value for
that id is discarded and re-resolved); only when the queue is empty does
it spawn nothing. -/
theorem c7_preload_installation_amended (d : GuildMusicData) :
    (∀ f t, (GuildMusic.tick_guild_music d).1.queue = f :: t →
      (GuildMusic.tick_guild_music d).1.preloaded =
        some ⟨f.uuid, none⟩ ∧
      (GuildMusic.tick_guild_music d).2.2 =
        some ⟨f.uuid, f.search_or_url⟩) ∧
    ((GuildMusic.tick_guild_music d).1.queue = [] →
      (GuildMusic.tick_guild_music d).2.2 = none) := by
  obtain ⟨g, q, pl, np, cp⟩ := d
  cases np with
  | some np => cases q <;> simp [GuildMusic.tick_guild_music]
  | none =>
    cases q with
    | nil => simp [GuildMusic.tick_guild_music]
    | cons x xs => cases xs <;> simp [GuildMusic.tick_guild_music]

/-- Witness for C7: on the C7 fixture (front entry `5`, resolved slot
for `5`), Tick installs the fresh empty slot for `5` and spawns a new
resolution for it. -/
theorem c7_preload_installation_amended_witness :
    (GuildMusic.tick_guild_music fixtureC7).1.preloaded =
      some ⟨5, none⟩ ∧
    (GuildMusic.tick_guild_music fixtureC7).2.2 = some ⟨5, "q"⟩ :=
  (c7_preload_installation_amended fixtureC7).1 ⟨5, "q", 7, 3⟩ [] rfl

/-- C2 counterexample: on a guild with a playing track and a queued
entry, neither `skip` nor `stop` nor `shuffle` invokes
`tick_guild_music` after mutating the queue state. -/
theorem c2_mutators_do_not_tick_counterexample :
    (GuildMusic.skip fixtureC2 2 true).ticked = false ∧
    (GuildMusic.stop fixtureC2 true).ticked = false ∧
    (GuildMusic.shuffle fixtureC2 [0]).ticked = false := by
  refine ⟨rfl, rfl, rfl⟩

/-- C2 (amended): only `insert_music` (enqueue) and
`handle_track_event` (playback completion) invoke `tick_guild_music`
after mutating the guild state; `skip`, `stop` and `shuffle` do not —
in particular `skip` leaves the preload slot and the pending task lists
exactly as they were, with no fresh scheduling decision. -/
theorem c2_tick_after_mutation_amended (s : SysState) (q : String)
    (ch rb u uu n : Nat) (ok : Bool) (choices : List Nat) :
    (GuildMusic.insert_music s q ch rb u).ticked = true ∧
    (GuildMusic.handle_track_event s uu).ticked = true ∧
    (GuildMusic.skip s n ok).ticked = false ∧
    (GuildMusic.stop s ok).ticked = false ∧
    (GuildMusic.shuffle s choices).ticked = false ∧
    (GuildMusic.skip s n ok).state.preloadTasks = s.preloadTasks ∧
    (GuildMusic.skip s n ok).state.data.preloaded = s.data.preloaded ∧
    (GuildMusic.shuffle s choices).state.data.preloaded =
      s.data.preloaded := by
  refine ⟨rfl, rfl, ?_, ?_, ?_, ?_, ?_, ?_⟩
  · unfold GuildMusic.skip
    cases hnp : s.data.now_playing <;> cases ok <;> simp [hnp]
  · unfold GuildMusic.stop
    cases hnp : s.data.now_playing <;> cases ok <;> simp [hnp]
  · unfold GuildMusic.shuffle
    split <;> simp
  · unfold GuildMusic.skip
    cases hnp : s.data.now_playing <;> cases ok <;> simp [hnp]
  · unfold GuildMusic.skip
    cases hnp : s.data.now_playing <;> cases ok <;> simp [hnp]
  · unfold GuildMusic.shuffle
    split <;> simp

/-- C3 counterexample: a stale completion notification (id `5`, playing
id `9`) does not leave the guild state unchanged — the handler still
invokes Tick, whose preload phase resets the resolved slot of the front
entry back to empty. -/
theorem c3_stale_event_changes_state_counterexample :
    fixtureC3.data.now_playing = some ⟨9, 100⟩ ∧
    (5 : Nat) ≠ 9 ∧
    (GuildMusic.handle_track_event fixtureC3 5).state.data ≠
      fixtureC3.data := by
  refine ⟨rfl, by decide, by decide⟩

/-- C3 (amended): on a matching completion notification the handler
requests a stop on the playing handle, clears `now_playing` and invokes
Tick; on a non-matching one it requests no stop and leaves `now_playing`
alone, but still invokes Tick on the unmodified state (so the tick's
preload phase may change the guild state). -/
theorem c3_completion_handler_amended (s : SysState) (u : Nat) :
    (∀ np, s.data.now_playing = some np → np.uuid = u →
      (GuildMusic.handle_track_event s u).stopped = [np.track_handle] ∧
      (GuildMusic.handle_track_event s u).state =
        GuildMusic.tickSys
          { s with data := { s.data with now_playing := none } } ∧
      (GuildMusic.handle_track_event s u).ticked = true) ∧
    ((∀ np, s.data.now_playing = some np → np.uuid ≠ u) →
      (GuildMusic.handle_track_event s u).stopped = [] ∧
      (GuildMusic.handle_track_event s u).state = GuildMusic.tickSys s ∧
      (GuildMusic.handle_track_event s u).state.data.now_playing =
        s.data.now_playing) := by
  constructor
  · intro np hnp huu
    unfold GuildMusic.handle_track_event
    simp [hnp, huu]
  · intro hne
    unfold GuildMusic.handle_track_event
    cases hnp : s.data.now_playing with
    | none =>
      refine ⟨rfl, rfl, ?_⟩
      rw [(tickSys_fields s).2.1]
      exact hnp
    | some np =>
      have hu : ¬ np.uuid = u := hne np hnp
      refine ⟨by simp [hu], by simp [hu], ?_⟩
      simp only [hu, if_false]
      rw [(tickSys_fields s).2.1]
      exact hnp

/-- Witness for C3: delivering the matching completion id `9` on the C3
fixture stops handle `100`, clears `now_playing`, and runs Tick on the
cleared state. -/
theorem c3_completion_handler_amended_witness :
    (GuildMusic.handle_track_event fixtureC3 9).stopped = [100] ∧
    (GuildMusic.handle_track_event fixtureC3 9).state =
      GuildMusic.tickSys
        { fixtureC3 with
          data := { fixtureC3.data with now_playing := none } } ∧
    (GuildMusic.handle_track_event fixtureC3 9).ticked = true :=
  (c3_completion_handler_amended fixtureC3 9).1 ⟨9, 100⟩ rfl rfl

theorem step_call_pair (s s' : SysState) (h : GuildMusic.Step s s') :
    s'.data.call_pair = s.data.call_pair := by
  cases h with
  | insert q ch rb u hu => exact (tickSys_fields _).1
  | trackEvent u =>
    show (GuildMusic.handle_track_event s u).state.data.call_pair = _
    unfold GuildMusic.handle_track_event
    cases hnp : s.data.now_playing with
    | none => exact (tickSys_fields _).1
    | some np =>
      dsimp only
      by_cases h' : np.uuid = u
      · rw [if_pos h']
        exact (tickSys_fields _).1
      · rw [if_neg h']
        exact (tickSys_fields _).1
  | stopCmd ok =>
    unfold GuildMusic.stop
    cases hnp : s.data.now_playing <;> cases ok <;> simp
  | skipCmd n ok =>
    unfold GuildMusic.skip
    cases hnp : s.data.now_playing <;> cases ok <;> simp [hnp]
  | shuffleCmd choices =>
    unfold GuildMusic.shuffle
    split <;> simp
  | preloadDone i outcome =>
    unfold GuildMusic.resolvePreloadAt
    cases hg : s.preloadTasks.get? i with
    | none => rfl
    | some t =>
      cases outcome with
      | none => rfl
      | some tp =>
        dsimp only
        cases hpl : s.data.preloaded with
        | none => rfl
        | some pl =>
          dsimp only
          by_cases h' : pl.uuid = t.uuid
          · rw [if_pos h']
          · rw [if_neg h']
  | playDone i res_out call_out =>
    unfold GuildMusic.resolvePlayAt
    cases hg : s.playTasks.get? i with
    | none => rfl
    | some t =>
      dsimp only
      cases htp : (if t.track_pair_option.isSome then t.track_pair_option
          else res_out) with
      | none => rfl
      | some tp =>
        cases hcl : (if t.current_call_option.isSome then t.current_call_option
            else call_out) with
        | none => rfl
        | some c => rfl

/-- C8 counterexample: a playback task with no reusable call acquires a
fresh connection (`call_out = some 7`), playback starts (`now_playing`
becomes set), yet the acquired connection is not retained in the guild
state — `call_pair` is still `none` afterwards. -/
theorem c8_connection_not_retained_counterexample :
    (GuildMusic.resolvePlayAt fixtureC8 0 (some ⟨8, 9⟩) (some 7)).data.now_playing
        = some ⟨5, 9⟩ ∧
    (GuildMusic.resolvePlayAt fixtureC8 0 (some ⟨8, 9⟩) (some 7)).data.call_pair
        = none ∧
    fixtureC8.data.call_pair = none :=
  ⟨rfl, rfl, rfl⟩

/-- C8 (amended): Tick's decision phase offers the held call for reuse
exactly when it is bound to the popped entry's target channel; however,
no transition of the system ever writes `call_pair`, so starting from a
state with no held connection, `call_pair` stays `none` forever and a
fresh connection is acquired for every track. -/
theorem c8_connection_reuse_amended :
    (∀ d next rest, d.now_playing = none → d.queue = next :: rest →
      ((GuildMusic.tick_guild_music d).2.1.map PlayTask.current_call_option) =
        some (d.call_pair.bind
          fun pr => if pr.1 = next.channel_id then some pr.2 else none)) ∧
    (∀ s s', GuildMusic.Step s s' →
      s'.data.call_pair = s.data.call_pair) ∧
    (∀ s s', GuildMusic.Reaches s s' → s.data.call_pair = none →
      s'.data.call_pair = none) := by
  refine ⟨?_, step_call_pair, ?_⟩
  · intro d next rest hnp hq
    obtain ⟨g, qq, pl, np, cp⟩ := d
    dsimp only at hnp hq
    subst hnp
    subst hq
    cases rest <;> rfl
  · intro s s' hr hnone
    induction hr with
    | refl => exact hnone
    | tail hab hbc ih => rw [step_call_pair _ _ hbc]; exact ih

/-- Witness for C8: on a held call bound to channel `7` with a front
entry targeting channel `7`, the spawned playback task carries the held
call `42` for reuse; a concrete `stop` step leaves `call_pair` exactly
as it was; and after the concrete C8 playback-completion step,
`call_pair` is still `none`. -/
theorem c8_connection_reuse_amended_witness :
    ((GuildMusic.tick_guild_music fixtureC8w).2.1.map
        PlayTask.current_call_option) = some (some 42) ∧
    (GuildMusic.stop fixtureC8 true).state.data.call_pair =
      fixtureC8.data.call_pair ∧
    (GuildMusic.resolvePlayAt fixtureC8 0 (some ⟨8, 9⟩)
        (some 7)).data.call_pair = none := by
  refine ⟨?_, ?_, ?_⟩
  · exact c8_connection_reuse_amended.1 fixtureC8w ⟨5, "q", 7, 3⟩ [] rfl rfl
  · exact c8_connection_reuse_amended.2.1 fixtureC8 _
      (GuildMusic.Step.stopCmd fixtureC8 true)
  · exact c8_connection_reuse_amended.2.2 fixtureC8 _
      (Relation.ReflTransGen.single
        (GuildMusic.Step.playDone fixtureC8 0 (some ⟨8, 9⟩) (some 7))) rfl

theorem queueUuids_drop {A k : Nat} {q : List MusicRequest}
    (h : A ∈ (q.drop k).map (fun r => r.uuid)) :
    A ∈ q.map (fun r => r.uuid) := by
  obtain ⟨r, hr, hru⟩ := List.mem_map.mp h
  exact List.mem_map.mpr ⟨r, List.mem_of_mem_drop hr, hru⟩

theorem uuidRetired_tickSys (A : Nat) (s : SysState) (h : UuidRetired A s) :
    UuidRetired A (GuildMusic.tickSys s) := by
  obtain ⟨h1, h2, h3, h4⟩ := h
  refine ⟨?_, ?_, ?_, ?_⟩
  · rw [(tickSys_fields s).2.2.1]
    exact h1
  · intro hmem
    exact h2 (tickSys_queue_mem s A hmem)
  · intro pt hpt heq
    rcases tickSys_playTasks_mem s pt hpt with h' | h'
    · exact h3 pt h' heq
    · rw [heq] at h'
      exact h2 h'
  · rw [(tickSys_fields s).2.1]
    exact h4

theorem uuidRetired_step (A : Nat) (s s' : SysState)
    (hstep : GuildMusic.Step s s') (h : UuidRetired A s) : UuidRetired A s' := by
  obtain ⟨h1, h2, h3, h4⟩ := h
  cases hstep with
  | insert q ch rb u hu =>
    apply uuidRetired_tickSys
    refine ⟨List.mem_append_left _ h1, ?_, h3, h4⟩
    intro hmem
    simp only [queueUuids, List.map_append, List.mem_append, List.map_cons,
      List.map_nil, List.mem_cons, List.not_mem_nil, or_false] at hmem
    rcases hmem with hmem | rfl
    · exact h2 hmem
    · exact hu h1
  | trackEvent u =>
    apply uuidRetired_tickSys
    cases hnp : s.data.now_playing with
    | none =>
      dsimp only
      exact ⟨h1, h2, h3, h4⟩
    | some np =>
      dsimp only
      by_cases h' : np.uuid = u
      · rw [if_pos h']
        exact ⟨h1, h2, h3, by simp⟩
      · rw [if_neg h']
        exact ⟨h1, h2, h3, h4⟩
  | stopCmd ok =>
    unfold GuildMusic.stop
    cases hnp : s.data.now_playing with
    | none => exact ⟨h1, h2, h3, h4⟩
    | some np =>
      dsimp only
      cases ok
      all_goals exact ⟨h1, by simp [queueUuids], h3, by simp⟩
  | skipCmd n ok =>
    unfold GuildMusic.skip
    dsimp only
    cases hnp : s.data.now_playing with
    | none =>
      exact ⟨h1, fun hmem => h2 (queueUuids_drop hmem), h3, by simp⟩
    | some np =>
      rw [hnp] at h4
      dsimp only
      cases ok
      all_goals exact ⟨h1, fun hmem => h2 (queueUuids_drop hmem), h3, h4⟩
  | shuffleCmd choices =>
    unfold GuildMusic.shuffle
    split
    · exact ⟨h1, h2, h3, h4⟩
    · refine ⟨h1, ?_, h3, h4⟩
      intro hmem
      have hperm :=
        (shuffleWith_perm choices s.data.queue).map (fun r => r.uuid)
      exact h2 (hperm.mem_iff.mp hmem)
  | preloadDone i outcome =>
    unfold GuildMusic.resolvePreloadAt
    cases hg : s.preloadTasks.get? i with
    | none => exact ⟨h1, h2, h3, h4⟩
    | some t =>
      cases outcome with
      | none => exact ⟨h1, h2, h3, h4⟩
      | some tp =>
        dsimp only
        cases hpl : s.data.preloaded with
        | none => exact ⟨h1, h2, h3, h4⟩
        | some pl =>
          dsimp only
          by_cases h' : pl.uuid = t.uuid
          · rw [if_pos h']
            exact ⟨h1, h2, h3, h4⟩
          · rw [if_neg h']
            exact ⟨h1, h2, h3, h4⟩
  | playDone i res_out call_out =>
    unfold GuildMusic.resolvePlayAt
    cases hg : s.playTasks.get? i with
    | none => exact ⟨h1, h2, h3, h4⟩
    | some t =>
      have htA : t.next.uuid ≠ A := h3 t (List.get?_mem hg)
      have herase : ∀ pt ∈ s.playTasks.eraseIdx i, pt.next.uuid ≠ A :=
        fun pt hpt => h3 pt ((List.eraseIdx_sublist s.playTasks i).subset hpt)
      dsimp only
      cases htp : (if t.track_pair_option.isSome then t.track_pair_option
          else res_out) with
      | none => exact ⟨h1, h2, herase, h4⟩
      | some tp =>
        cases hcl : (if t.current_call_option.isSome then t.current_call_option
            else call_out) with
        | none => exact ⟨h1, h2, herase, h4⟩
        | some c => exact ⟨h1, h2, herase, by simpa using htA⟩

/-- C1 counterexample: entry `5` is queued with its preload in flight
while track `9` plays. `skip(2)` removes entry `5` from the queue before
the preload resolves, but does not invalidate the preload slot; when the
preload task then completes, its resolved pair for `5` passes the slot's
id check and is committed as the active preload — contradicting the
claim that a skipped entry's resolution result is never committed as the
active preload. -/
theorem c1_skip_preload_commit_counterexample :
    (GuildMusic.skip fixtureC1 2 true).state.data.queue = [] ∧
    (GuildMusic.skip fixtureC1 2 true).state.data.preloaded =
      some ⟨5, none⟩ ∧
    (GuildMusic.resolvePreloadAt (GuildMusic.skip fixtureC1 2 true).state 0
        (some ⟨8, 9⟩)).data.preloaded = some ⟨5, some ⟨8, 9⟩⟩ ∧
    5 ∉ queueUuids (GuildMusic.resolvePreloadAt
        (GuildMusic.skip fixtureC1 2 true).state 0 (some ⟨8, 9⟩)).data :=
  ⟨rfl, rfl, rfl, by decide⟩

/-- C1 (amended): once a uuid `A` is retired — handed out in the past
but no longer in the queue, in any pending playback task, or playing
(as after `skip` removes `A`'s entry) — it stays retired across every
reachable state, and in particular no reachable state ever has `A` as
the `now_playing` uuid: `A`'s resolution result is never committed as
playing. (Its result may still be committed into the preload slot,
whose id check compares against the slot's own claim, not the queue.) -/
theorem c1_skipped_entry_never_plays (A : Nat) (s s' : SysState)
    (h : UuidRetired A s) (hr : GuildMusic.Reaches s s') :
    UuidRetired A s' ∧
    ∀ np, s'.data.now_playing = some np → np.uuid ≠ A := by
  have hinv : UuidRetired A s' := by
    induction hr with
    | refl => exact h
    | tail hab hbc ih => exact uuidRetired_step A _ _ hbc ih
  refine ⟨hinv, ?_⟩
  intro np hnp hA
  exact hinv.2.2.2 (by simp [hnp, hA])

/-- Witness for C1: the uuid `5` is retired in the post-skip state of
the C1 fixture, and stays retired after the concrete preload-completion
step that commits `5`'s resolved pair into the slot. -/
theorem c1_skipped_entry_never_plays_witness :
    UuidRetired 5 (GuildMusic.resolvePreloadAt
      (GuildMusic.skip fixtureC1 2 true).state 0 (some ⟨8, 9⟩)) :=
  (c1_skipped_entry_never_plays 5 (GuildMusic.skip fixtureC1 2 true).state _
    (by decide)
    (Relation.ReflTransGen.single
      (GuildMusic.Step.preloadDone _ 0 (some ⟨8, 9⟩)))).1
